import Mathlib

/-!
Shallow embedding of `src/pingdom-zabbix-integration.py` (the Pingdom → Zabbix
reconciliation program) and proofs about it.

Modelling conventions:
* Python strings are Lean `String`s (sequences of Unicode code points).
* The network is modelled as an explicit environment: each remote call consumes
  the next scripted response from a per-endpoint script, and the model records a
  log of the calls it issued.  A raised `aiohttp` exception is modelled by the
  `Except.error` outcome (exhausting a script is also modelled as a raise, so
  theorems always use scripts long enough for the run at hand).
* Python truthiness on the identifier strings returned by the Zabbix API
  (`if not host_id:`) is `s ≠ ""`; `None` is `Option.none`.
* `asyncio.gather` schedules the per-check coroutines concurrently but collects
  their results in task order and does not cancel siblings when one raises; the
  model runs the checks sequentially in task order, threading the shared cache,
  and marks the whole cycle as raised when any per-check task raised.
-/

namespace PZ

/-- A character of the class `[a-zA-Z0-9_]` from the sanitizing regex. -/
def allowedChar (c : Char) : Bool :=
  ('a' ≤ c && c ≤ 'z') || ('A' ≤ c && c ≤ 'Z') || ('0' ≤ c && c ≤ '9') || c = '_'

/-- One character step of `re.sub(r'[^a-zA-Z0-9_]', '_', host_name)`. -/
def sanitizeChar (c : Char) : Char :=
  if allowedChar c then c else '_'

/-- `sanitize_host_name` (source line 49): replace every character outside
`[a-zA-Z0-9_]` with `_`.  `re.sub` maps each code point independently. -/
def sanitize_host_name (host_name : String) : String :=
  ⟨host_name.data.map sanitizeChar⟩

/-- `retry_strategy.total` (source line 38). -/
def retry_total : Nat := 3

/-- `retry_strategy.backoff_factor` (source line 41), in seconds. -/
def backoff_factor : Nat := 1

/-- `retry_strategy.status_forcelist` (source line 39). -/
def status_forcelist : List Nat := [429, 500, 502, 503, 504]

/-- Outcome of `fetch_with_retry`: a successful JSON response on some attempt
(1-based attempt count), an immediately re-raised non-retryable
`ClientResponseError`, or the final "Max retries exceeded" error after the
given number of attempts. -/
inductive FetchOutcome where
  | success (attempts : Nat)
  | raised (status : Nat) (attempts : Nat)
  | maxRetries (attempts : Nat)
  deriving DecidableEq, Repr

/-- The attempt loop of `fetch_with_retry` (source lines 56-65).  `statuses i`
is the HTTP status the network returns for the i-th request (0-based);
`response.raise_for_status()` raises exactly for statuses ≥ 400.  The second
component collects the `asyncio.sleep` backoff waits (in seconds), each
`backoff_factor * 2 ^ attempt`. -/
def fetchLoop (statuses : Nat → Nat) : Nat → Nat → FetchOutcome × List Nat
  | 0, attempt => (FetchOutcome.maxRetries attempt, [])
  | remaining + 1, attempt =>
    let s := statuses attempt
    if s < 400 then
      (FetchOutcome.success (attempt + 1), [])
    else if s ∈ status_forcelist then
      let rest := fetchLoop statuses remaining (attempt + 1)
      (rest.1, backoff_factor * 2 ^ attempt :: rest.2)
    else
      (FetchOutcome.raised s (attempt + 1), [])

/-- `fetch_with_retry` (source lines 53-66): `for attempt in
range(retry_strategy.total)` — at most `retry_total` requests in total. -/
def fetch_with_retry (statuses : Nat → Nat) : FetchOutcome × List Nat :=
  fetchLoop statuses retry_total 0

/-- Scripted response for one `host.get` call (source lines 90-99). -/
inductive GetResp where
  /-- `result` is a non-empty list; its first element carries this `hostid`. -/
  | found (id : String)
  /-- `result` is the empty list, so `host_id` becomes `None`. -/
  | notFound
  /-- The underlying `fetch_with_retry` raised. -/
  | raise
  deriving DecidableEq, Repr

/-- Scripted response for one `host.create` call (source lines 111-126). -/
inductive CreateResp where
  /-- The response held `result.hostids = ids`. -/
  | ok (ids : List String)
  /-- The response lacked `result`/`hostids` (the `KeyError` branch). -/
  | malformed
  /-- The underlying `fetch_with_retry` raised. -/
  | raise
  deriving DecidableEq, Repr

/-- The mutable context threaded through host resolution: the module-global
`host_id_cache` (a Python dict, modelled as an insertion-ordered association
list with overwrite-on-assign), the remaining scripted responses of the two
remote endpoints, and the log of remote calls issued so far (each entry is the
host name sent in the call). -/
structure ZState where
  cache : List (String × String)
  getScript : List GetResp
  createScript : List CreateResp
  getCalls : List String
  createCalls : List String
  deriving DecidableEq, Repr

/-- Python dict assignment `host_id_cache[name] = id`: overwrite the binding if
the key is present, else append it. -/
def cacheInsert (cache : List (String × String)) (name id : String) :
    List (String × String) :=
  match cache with
  | [] => [(name, id)]
  | (k, v) :: rest =>
    if k = name then (k, id) :: rest else (k, v) :: cacheInsert rest name id

/-- Python truthiness of a host-id string: `""` is falsy. -/
def truthy (s : String) : Bool := s ≠ ""

/-- Python truthiness of an optional host-id (`None` and `""` are falsy). -/
def truthyOpt : Option String → Bool
  | some s => truthy s
  | none => false

/-- `get_zabbix_host_id` (source lines 85-102).  Cache hit returns the cached
value without any remote call; otherwise one `host.get` call is issued.  A
`found` response yields `result[0].hostid`, cached only when truthy; an empty
`result` yields `None`.  `Except.error` models a raised exception. -/
def get_zabbix_host_id (st : ZState) (host_name : String) :
    Except Unit (Option String) × ZState :=
  match st.cache.lookup host_name with
  | some v => (Except.ok (some v), st)
  | none =>
    match st.getScript with
    | [] => (Except.error (), st)
    | resp :: rest =>
      match resp with
      | GetResp.raise =>
        (Except.error (),
         { st with getScript := rest, getCalls := st.getCalls ++ [host_name] })
      | GetResp.notFound =>
        (Except.ok none,
         { st with getScript := rest, getCalls := st.getCalls ++ [host_name] })
      | GetResp.found id =>
        if truthy id then
          (Except.ok (some id),
           { st with cache := cacheInsert st.cache host_name id,
                     getScript := rest, getCalls := st.getCalls ++ [host_name] })
        else
          (Except.ok (some id),
           { st with getScript := rest, getCalls := st.getCalls ++ [host_name] })

/-- `create_zabbix_host` (source lines 104-132).  It re-sanitizes its argument,
re-checks existence through `get_zabbix_host_id`, and only then issues one
`host.create` call.  On a well-shaped response it caches and returns
`result.hostids[0]` (cached even when that string is empty); a missing key or
an empty `hostids` list is the `except (KeyError, IndexError)` branch returning
`None`. -/
def create_zabbix_host (st : ZState) (host_name : String) :
    Except Unit (Option String) × ZState :=
  match get_zabbix_host_id st (sanitize_host_name host_name) with
  | (Except.error e, st1) => (Except.error e, st1)
  | (Except.ok v, st1) =>
    if truthyOpt v then
      (Except.ok (st1.cache.lookup (sanitize_host_name host_name)), st1)
    else
      match st1.createScript with
      | [] => (Except.error (), st1)
      | resp :: rest =>
        match resp with
        | CreateResp.raise =>
          (Except.error (),
           { st1 with createScript := rest,
                      createCalls := st1.createCalls ++ [sanitize_host_name host_name] })
        | CreateResp.malformed =>
          (Except.ok none,
           { st1 with createScript := rest,
                      createCalls := st1.createCalls ++ [sanitize_host_name host_name] })
        | CreateResp.ok [] =>
          (Except.ok none,
           { st1 with createScript := rest,
                      createCalls := st1.createCalls ++ [sanitize_host_name host_name] })
        | CreateResp.ok (id :: _) =>
          (Except.ok (some id),
           { st1 with cache := cacheInsert st1.cache (sanitize_host_name host_name) id,
                      createScript := rest,
                      createCalls := st1.createCalls ++ [sanitize_host_name host_name] })

/-- A Pingdom check as consumed by `process_check`: its `name` and `status`
fields. -/
structure Check where
  name : String
  status : String
  deriving DecidableEq, Repr

/-- `status = 1 if check['status'] == "up" else 0` (source line 229). -/
def checkStatusValue (c : Check) : Nat := if c.status = "up" then 1 else 0

/-- The tail of `process_check` after a falsy `get_zabbix_host_id` result
(source lines 235-241): try `create_zabbix_host`; a falsy created id skips the
check by returning `(None, None, None)`, modelled as `Option.none`. -/
def createPath (st : ZState) (sanitized check_name : String) (status : Nat) :
    Except Unit (Option (String × String × Nat)) × ZState :=
  match create_zabbix_host st sanitized with
  | (Except.error e, st1) => (Except.error e, st1)
  | (Except.ok w, st1) =>
    if truthyOpt w then
      (Except.ok (some (w.getD "", check_name, status)), st1)
    else
      (Except.ok none, st1)

/-- `process_check` (source lines 226-244): derive the status value and the
sanitized host name `sanitize_host_name("Pingdom_" + check_name)`, look the
host up, create it when the lookup is falsy, and return the
`(host_id, check_name, status)` triple — or `(None, None, None)` when creation
failed without raising. -/
def process_check (st : ZState) (check : Check) :
    Except Unit (Option (String × String × Nat)) × ZState :=
  match get_zabbix_host_id st (sanitize_host_name ("Pingdom_" ++ check.name)) with
  | (Except.error e, st1) => (Except.error e, st1)
  | (Except.ok v, st1) =>
    if truthyOpt v then
      (Except.ok (some (v.getD "", check.name, checkStatusValue check)), st1)
    else
      createPath st1 (sanitize_host_name ("Pingdom_" ++ check.name)) check.name
        (checkStatusValue check)

/-- `item_key = f"pingdom.status[{check_name}]"` (source lines 138, 171, 201). -/
def itemKey (check_name : String) : String :=
  "pingdom.status[" ++ check_name ++ "]"

/-- One entry of the `item.create` params list (source lines 139-148). -/
structure ItemCreateEntry where
  name : String
  key_ : String
  hostid : String
  type : Nat
  value_type : Nat
  delay : String
  history : String
  trends : String
  deriving DecidableEq, Repr

/-- The params payload built by `create_zabbix_item_batch` (source lines
134-157): one entry per `zip(host_ids, check_names)` tuple; the whole list is
sent in one `item.create` call. -/
def create_zabbix_item_batch (host_ids check_names : List String) :
    List ItemCreateEntry :=
  (host_ids.zip check_names).map fun p =>
    { name := p.2, key_ := itemKey p.2, hostid := p.1, type := 2,
      value_type := 3, delay := "60s", history := "7d", trends := "365d" }

/-- One entry of the `trigger.create` params list (source lines 173-178). -/
structure TriggerCreateEntry where
  description : String
  expression : String
  priority : Nat
  hostid : String
  deriving DecidableEq, Repr

/-- `trigger_expression = f"{{Pingdom_{check_name}:{item_key}.last()}}=0"`
(source line 172) — note that it interpolates the raw `check_name`, not the
sanitized host name. -/
def triggerExpression (check_name : String) : String :=
  "\x7bPingdom_" ++ check_name ++ ":" ++ itemKey check_name ++ ".last()\x7d=0"

/-- The params payload built by `create_zabbix_trigger_batch` (source lines
167-187): one entry per `zip(host_ids, check_names)` tuple; one
`trigger.create` call. -/
def create_zabbix_trigger_batch (host_ids check_names : List String) :
    List TriggerCreateEntry :=
  (host_ids.zip check_names).map fun p =>
    { description := "Pingdom check " ++ p.2 ++ " is down",
      expression := triggerExpression p.2, priority := 4, hostid := p.1 }

/-- One entry of the `item.update` params list (source lines 202-207). -/
structure ItemUpdateEntry where
  hostid : String
  key_ : String
  value_type : Nat
  value : Nat
  deriving DecidableEq, Repr

/-- The params payload built by `send_data_to_zabbix_batch` (source lines
197-216): one entry per `zip(host_ids, check_names, statuses)` tuple; one
`item.update` call. -/
def send_data_to_zabbix_batch (host_ids check_names : List String)
    (statuses : List Nat) : List ItemUpdateEntry :=
  (host_ids.zip (check_names.zip statuses)).map fun p =>
    { hostid := p.1, key_ := itemKey p.2.1, value_type := 3, value := p.2.2 }

/-- One batched mutation RPC issued against the Zabbix endpoint; each of the
three batch helpers issues exactly one such call per invocation. -/
inductive RpcCall where
  | itemCreate (entries : List ItemCreateEntry)
  | triggerCreate (entries : List TriggerCreateEntry)
  | itemUpdate (entries : List ItemUpdateEntry)
  deriving DecidableEq, Repr

def isItemCreateCall : RpcCall → Bool
  | RpcCall.itemCreate _ => true
  | _ => false

def isTriggerCreateCall : RpcCall → Bool
  | RpcCall.triggerCreate _ => true
  | _ => false

def isItemUpdateCall : RpcCall → Bool
  | RpcCall.itemUpdate _ => true
  | _ => false

/-- The environment's behaviour during one iteration of the `while True` loop:
the fetched Pingdom payload (`none` when `get_pingdom_checks` raised), the
scripted responses of the host endpoints, and whether each batched mutation
call raises out of its `fetch_with_retry`. -/
structure CycleEnv where
  fetch : Option (List Check)
  getScript : List GetResp
  createScript : List CreateResp
  itemRaise : Bool
  triggerRaise : Bool
  updateRaise : Bool
  deriving DecidableEq, Repr

/-- The `ZState` at the start of a cycle: the cache carried over from earlier
cycles, this cycle's scripts, and empty call logs. -/
def cycleState (env : CycleEnv) (cache : List (String × String)) : ZState :=
  { cache := cache, getScript := env.getScript,
    createScript := env.createScript, getCalls := [], createCalls := [] }

/-- The `asyncio.gather` over `process_check` tasks (source lines 260-261),
collected in task order with the shared state threaded through every task
(siblings of a raising task still run and are not cancelled). -/
def runResolve (st : ZState) :
    List Check → List (Except Unit (Option (String × String × Nat))) × ZState
  | [] => ([], st)
  | c :: rest =>
    ((process_check st c).1 :: (runResolve (process_check st c).2 rest).1,
     (runResolve (process_check st c).2 rest).2)

def isErr : Except Unit (Option (String × String × Nat)) → Bool
  | Except.error _ => true
  | Except.ok _ => false

/-- The value a non-raising `process_check` task contributed. -/
def exceptValue : Except Unit (Option (String × String × Nat)) →
    Option (String × String × Nat)
  | Except.error _ => none
  | Except.ok v => v

/-- The aggregation loop over `results` (source lines 263-269): a task result
is kept only when `host_id and check_name and status is not None`; the
`(None, None, None)` triple fails the `host_id` test.  The status value is
always `0` or `1`, so its `is not None` test always passes and is not
represented.  Returns the three index-aligned lists
`(host_ids, check_names, statuses)`. -/
def aggregate (results : List (Option (String × String × Nat))) :
    List String × List String × List Nat :=
  match results with
  | [] => ([], [], [])
  | r :: rest =>
    match r with
    | some (h, n, s) =>
      if truthy h && truthy n then
        (h :: (aggregate rest).1, n :: (aggregate rest).2.1,
         s :: (aggregate rest).2.2)
      else aggregate rest
    | none => aggregate rest

/-- How one loop iteration ended: `raised` when an exception escaped the cycle
(the `while` loop then terminates through the outer `try`), `completed` when
the iteration reached its `asyncio.sleep(60)`.  Both carry the batched
mutation calls issued during the iteration, in issue order. -/
inductive CycleResult where
  | raised (calls : List RpcCall)
  | completed (calls : List RpcCall)
  deriving DecidableEq, Repr

/-- The mutation calls an outcome carried. -/
def CycleResult.calls : CycleResult → List RpcCall
  | CycleResult.raised cs => cs
  | CycleResult.completed cs => cs

/-- The guarded mutation phase of one iteration (source lines 271-277): only
when the three aggregated lists are non-empty
(`if host_ids and check_names and statuses:`) are the three batched mutations
issued, in the fixed order `item.create`, `trigger.create`, `item.update`; a
raising mutation call ends the iteration with the calls issued so far. -/
def mutationPhase (env : CycleEnv)
    (agg : List String × List String × List Nat) : CycleResult :=
  if agg.1.isEmpty || agg.2.1.isEmpty || agg.2.2.isEmpty then
    CycleResult.completed []
  else if env.itemRaise then
    CycleResult.raised [RpcCall.itemCreate (create_zabbix_item_batch agg.1 agg.2.1)]
  else if env.triggerRaise then
    CycleResult.raised
      [RpcCall.itemCreate (create_zabbix_item_batch agg.1 agg.2.1),
       RpcCall.triggerCreate (create_zabbix_trigger_batch agg.1 agg.2.1)]
  else if env.updateRaise then
    CycleResult.raised
      [RpcCall.itemCreate (create_zabbix_item_batch agg.1 agg.2.1),
       RpcCall.triggerCreate (create_zabbix_trigger_batch agg.1 agg.2.1),
       RpcCall.itemUpdate (send_data_to_zabbix_batch agg.1 agg.2.1 agg.2.2)]
  else
    CycleResult.completed
      [RpcCall.itemCreate (create_zabbix_item_batch agg.1 agg.2.1),
       RpcCall.triggerCreate (create_zabbix_trigger_batch agg.1 agg.2.1),
       RpcCall.itemUpdate (send_data_to_zabbix_batch agg.1 agg.2.1 agg.2.2)]

/-- One iteration of the `while True` body (source lines 253-279): fetch,
resolve every check, aggregate, then run the guarded mutation phase. -/
def runCycle (env : CycleEnv) (cache : List (String × String)) :
    CycleResult × ZState :=
  match env.fetch with
  | none => (CycleResult.raised [], cycleState env cache)
  | some checks =>
    if (runResolve (cycleState env cache) checks).1.any isErr then
      (CycleResult.raised [], (runResolve (cycleState env cache) checks).2)
    else
      (mutationPhase env
         (aggregate ((runResolve (cycleState env cache) checks).1.map exceptValue)),
       (runResolve (cycleState env cache) checks).2)

/-- The daemon loop (source lines 252-279) over a finite scripted trace of
cycle environments, starting from the given cache.  Any exception escaping a
cycle terminates the loop (the surrounding `try`/`except` in `main_async` logs
it and returns, ending the process).  Returns the per-cycle outcomes, whether
the loop was terminated by an exception, and the concatenated `host.get` and
`host.create` call logs of the whole run. -/
def runCycles (cache : List (String × String)) :
    List CycleEnv → List CycleResult × Bool × List String × List String
  | [] => ([], false, [], [])
  | env :: rest =>
    match runCycle env cache with
    | (CycleResult.raised calls, st) =>
      ([CycleResult.raised calls], true, st.getCalls, st.createCalls)
    | (CycleResult.completed calls, st) =>
      (CycleResult.completed calls :: (runCycles st.cache rest).1,
       (runCycles st.cache rest).2.1,
       st.getCalls ++ (runCycles st.cache rest).2.2.1,
       st.createCalls ++ (runCycles st.cache rest).2.2.2)

/-- `main_async` (source lines 246-286): log in once (a failed login raises and
ends the run before any cycle, with the module-global cache starting empty),
then run the daemon loop. -/
def main_async (loginOk : Bool) (envs : List CycleEnv) :
    List CycleResult × Bool × List String × List String :=
  if loginOk then runCycles [] envs else ([], true, [], [])

/-- The check name carried by a `process_check` task result, when any. -/
def processResultName : Except Unit (Option (String × String × Nat)) → Option String
  | Except.ok (some t) => some t.2.1
  | Except.ok none => none
  | Except.error _ => none

/-- Two-cycle run for claim C3: the same check resolves twice; the first
cycle's `host.create` response is malformed, the second succeeds. -/
def c3Env1 : CycleEnv :=
  { fetch := some [⟨"A", "up"⟩],
    getScript := [GetResp.notFound, GetResp.notFound],
    createScript := [CreateResp.malformed],
    itemRaise := false, triggerRaise := false, updateRaise := false }

def c3Env2 : CycleEnv :=
  { fetch := some [⟨"A", "up"⟩],
    getScript := [GetResp.notFound, GetResp.notFound],
    createScript := [CreateResp.ok ["5"]],
    itemRaise := false, triggerRaise := false, updateRaise := false }

/-- Cycle for claim C4 in which check B's `host.get` call raises (e.g. its
retries were exhausted) while checks A and C resolve and create fine. -/
def c4EnvRaise : CycleEnv :=
  { fetch := some [⟨"A", "up"⟩, ⟨"B", "up"⟩, ⟨"C", "down"⟩],
    getScript := [GetResp.notFound, GetResp.notFound, GetResp.raise,
                  GetResp.notFound, GetResp.notFound],
    createScript := [CreateResp.ok ["1"], CreateResp.ok ["3"]],
    itemRaise := false, triggerRaise := false, updateRaise := false }

/-- Cycle for claim C4 in which check B fails softly: its host is not found
and its `host.create` response is malformed, without raising. -/
def c4EnvSoft : CycleEnv :=
  { fetch := some [⟨"A", "up"⟩, ⟨"B", "up"⟩, ⟨"C", "down"⟩],
    getScript := [GetResp.notFound, GetResp.notFound, GetResp.notFound,
                  GetResp.notFound, GetResp.notFound, GetResp.notFound],
    createScript := [CreateResp.ok ["1"], CreateResp.malformed, CreateResp.ok ["3"]],
    itemRaise := false, triggerRaise := false, updateRaise := false }

/-- The end-to-end scenario of claim C5: two fresh checks, an empty target. -/
def c5Env : CycleEnv :=
  { fetch := some [⟨"API", "up"⟩, ⟨"DB Primary", "down"⟩],
    getScript := [GetResp.notFound, GetResp.notFound, GetResp.notFound,
                  GetResp.notFound],
    createScript := [CreateResp.ok ["10101"], CreateResp.ok ["10102"]],
    itemRaise := false, triggerRaise := false, updateRaise := false }

/-- A healthy cycle: one check whose host already exists remotely. -/
def c2Good : CycleEnv :=
  { fetch := some [⟨"A", "up"⟩],
    getScript := [GetResp.found "7"], createScript := [],
    itemRaise := false, triggerRaise := false, updateRaise := false }

/-- A cycle whose Pingdom fetch raises. -/
def c2Fail : CycleEnv :=
  { fetch := none, getScript := [], createScript := [],
    itemRaise := false, triggerRaise := false, updateRaise := false }

/-- A cycle whose fetch succeeds with zero checks. -/
def c2Empty : CycleEnv :=
  { fetch := some [], getScript := [], createScript := [],
    itemRaise := false, triggerRaise := false, updateRaise := false }

/-- Cycle for claim C10: a check with the empty name whose host resolution
succeeds through `host.get`. -/
def c10Env : CycleEnv :=
  { fetch := some [⟨"", "up"⟩],
    getScript := [GetResp.found "7"], createScript := [],
    itemRaise := false, triggerRaise := false, updateRaise := false }

/-- Witness cycle for claims C6/C7: one check whose host is found remotely. -/
def c6Env : CycleEnv :=
  { fetch := some [⟨"A", "up"⟩],
    getScript := [GetResp.found "7"], createScript := [],
    itemRaise := false, triggerRaise := false, updateRaise := false }

/-- The mutation calls `c6Env` produces from an empty starting cache. -/
def c6Calls : List RpcCall :=
  [RpcCall.itemCreate
     [{ name := "A", key_ := "pingdom.status[A]", hostid := "7", type := 2,
        value_type := 3, delay := "60s", history := "7d", trends := "365d" }],
   RpcCall.triggerCreate
     [{ description := "Pingdom check A is down",
        expression := "\x7bPingdom_A:pingdom.status[A].last()\x7d=0",
        priority := 4, hostid := "7" }],
   RpcCall.itemUpdate
     [{ hostid := "7", key_ := "pingdom.status[A]", value_type := 3, value := 1 }]]

/-- Witness cycle for claim C7: a cycle whose fetch raises. -/
def c7Env : CycleEnv :=
  { fetch := none, getScript := [], createScript := [],
    itemRaise := false, triggerRaise := false, updateRaise := false }

/-- Witness state for claim C3: the cache already maps check A's sanitized
host name to a non-empty id, and the scripts are empty, so any remote call
would raise. -/
def c3CacheSt : ZState :=
  { cache := [("Pingdom_A", "9")], getScript := [], createScript := [],
    getCalls := [], createCalls := [] }

theorem sanitizeChar_idem (c : Char) :
    sanitizeChar (sanitizeChar c) = sanitizeChar c := by
  by_cases h : allowedChar c
  · simp [sanitizeChar, h]
  · simp [sanitizeChar, h]

theorem allowedChar_sanitizeChar (c : Char) :
    allowedChar (sanitizeChar c) = true := by
  by_cases h : allowedChar c
  · simp [sanitizeChar, h]
  · show allowedChar (if allowedChar c then c else '_') = true
    rw [if_neg h]
    decide

theorem sanitize_data (s : String) :
    (sanitize_host_name s).data = s.data.map sanitizeChar := rfl

/-- C8: sanitization is deterministic (it is a function) and idempotent, its
output only contains characters of the class `[A-Za-z0-9_]`, and it preserves
the length of its input. -/
theorem claim_C8 (x : String) :
    sanitize_host_name (sanitize_host_name x) = sanitize_host_name x ∧
    (sanitize_host_name x).data.all allowedChar = true ∧
    (sanitize_host_name x).length = x.length := by
  obtain ⟨l⟩ := x
  refine ⟨?_, ?_, ?_⟩
  · show String.mk ((l.map sanitizeChar).map sanitizeChar) = String.mk (l.map sanitizeChar)
    congr 1
    induction l with
    | nil => rfl
    | cons c t ih => simp [sanitizeChar_idem, ih]
  · show (l.map sanitizeChar).all allowedChar = true
    rw [List.all_eq_true]
    intro c hc
    obtain ⟨a, _, rfl⟩ := List.mem_map.1 hc
    exact allowedChar_sanitizeChar a
  · show (String.mk (l.map sanitizeChar)).length = (String.mk l).length
    simp [String.length_mk]

/-- C1 counterexample: the spec's scenario "a call returning status 503 three
times then 200 succeeds" is false — `fetch_with_retry` makes at most
`retry_total = 3` requests, so the fourth response is never seen and the call
ends in the max-retries error after 3 attempts (sleeping 1s, 2s and 4s). -/
theorem claim_C1_counterexample :
    fetch_with_retry (fun i => if i < 3 then 503 else 200) =
      (FetchOutcome.maxRetries 3, [1, 2, 4]) := by
  rfl

/-- C1 amended: the retry policy is bounded at 3 total request attempts with
exponential backoff (1s then 2s then 4s): a call returning 503 twice then 200
succeeds on the third attempt; a call returning 503 three times in a row fails
with the max-retries error after exactly 3 attempts and performs no further
attempts; a non-retryable status such as 404 is raised immediately on the
first attempt; a 200 succeeds on the first attempt with no backoff wait. -/
theorem claim_C1_amended :
    fetch_with_retry (fun i => if i < 2 then 503 else 200) =
      (FetchOutcome.success 3, [1, 2]) ∧
    fetch_with_retry (fun _ => 503) = (FetchOutcome.maxRetries 3, [1, 2, 4]) ∧
    fetch_with_retry (fun _ => 404) = (FetchOutcome.raised 404 1, []) ∧
    fetch_with_retry (fun _ => 200) = (FetchOutcome.success 1, []) :=
  ⟨rfl, rfl, rfl, rfl⟩

theorem allowedChar_of_mem_sanitize {s : String} {c : Char}
    (h : c ∈ (sanitize_host_name s).data) : allowedChar c = true := by
  rw [sanitize_data] at h
  obtain ⟨a, _, rfl⟩ := List.mem_map.1 h
  exact allowedChar_sanitizeChar a

theorem triggerExpression_eq (n : String) :
    triggerExpression n =
      "\x7bPingdom_" ++ n ++ ":pingdom.status[" ++ n ++ "].last()\x7d=0" := by
  have h1 : ∀ t : String, ":" ++ ("pingdom.status[" ++ t) = ":pingdom.status[" ++ t := by
    intro t
    rw [← String.append_assoc]
    rfl
  have h2 : ("]" : String) ++ ".last()\x7d=0" = "].last()\x7d=0" := rfl
  simp only [triggerExpression, itemKey, String.append_assoc, h1, h2]

/-- C9: every trigger expression built by the trigger batch interpolates the
raw, unsanitized check name in its host-name position; whenever the check name
contains a character outside `[A-Za-z0-9_]`, the host name `Pingdom_<name>`
referenced by that expression differs from the sanitized host name under which
the host was resolved or created. -/
theorem claim_C9 :
    (∀ host_ids check_names : List String,
      (create_zabbix_trigger_batch host_ids check_names).map
          (fun e => e.expression) =
        (host_ids.zip check_names).map (fun p =>
          "\x7bPingdom_" ++ p.2 ++ ":pingdom.status[" ++ p.2 ++ "].last()\x7d=0")) ∧
    (∀ n : String, (∃ c ∈ n.data, allowedChar c = false) →
      ("Pingdom_" ++ n) ≠ sanitize_host_name ("Pingdom_" ++ n)) := by
  constructor
  · intro host_ids check_names
    rw [create_zabbix_trigger_batch, List.map_map]
    refine List.map_congr_left ?_
    intro p _
    exact triggerExpression_eq p.2
  · rintro n ⟨c, hc, hbad⟩ heq
    have h1 : c ∈ ("Pingdom_" ++ n).data := by
      rw [String.data_append]
      exact List.mem_append.2 (Or.inr hc)
    rw [heq] at h1
    rw [allowedChar_of_mem_sanitize h1] at hbad
    exact Bool.noConfusion hbad

/-- C9 witness: the check name "DB Primary" contains a space, and the host
name referenced by its trigger expression differs from the sanitized one. -/
theorem claim_C9_witness :
    ("Pingdom_" ++ "DB Primary") ≠ sanitize_host_name ("Pingdom_" ++ "DB Primary") :=
  claim_C9.2 "DB Primary" ⟨' ', by decide, by decide⟩

theorem lookup_cons (n k v : String) (t : List (String × String)) :
    List.lookup n ((k, v) :: t) = if n = k then some v else List.lookup n t := by
  by_cases h : n = k
  · subst h
    simp [List.lookup]
  · have hb : (n == k) = false := by
      simpa using h
    simp [List.lookup, hb, h]

theorem lookup_cacheInsert (c : List (String × String)) (k id n : String) :
    (cacheInsert c k id).lookup n = if n = k then some id else c.lookup n := by
  induction c with
  | nil =>
    show List.lookup n [(k, id)] = if n = k then some id else List.lookup n []
    rw [lookup_cons]
  | cons p t ih =>
    obtain ⟨k', v'⟩ := p
    by_cases hk : k' = k
    · subst hk
      have hins : cacheInsert ((k', v') :: t) k' id = (k', id) :: t := by
        simp [cacheInsert]
      rw [hins, lookup_cons, lookup_cons]
      by_cases h : n = k' <;> simp [h]
    · have hins : cacheInsert ((k', v') :: t) k id = (k', v') :: cacheInsert t k id := by
        simp [cacheInsert, hk]
      rw [hins, lookup_cons, lookup_cons, ih]
      by_cases h : n = k'
      · simp [h, hk]
      · simp [h]

/-- `get_zabbix_host_id` never removes or overwrites a cache entry holding a
non-empty id. -/
theorem get_cache_pres (st : ZState) (name n v : String)
    (h : st.cache.lookup n = some v) (_hv : v ≠ "") :
    ((get_zabbix_host_id st name).2).cache.lookup n = some v := by
  unfold get_zabbix_host_id
  cases hl : st.cache.lookup name with
  | some w => simpa [hl]
  | none =>
    cases hs : st.getScript with
    | nil => simpa [hl, hs]
    | cons resp rest =>
      cases resp with
      | raise => simpa [hl, hs]
      | notFound => simpa [hl, hs]
      | found id =>
        by_cases ht : truthy id
        · have hnn : ¬(n = name) := by
            intro hnn
            rw [hnn, hl] at h
            exact Option.noConfusion h
          simp [hl, hs, ht, lookup_cacheInsert, hnn, h]
        · simpa [hl, hs, ht]

/-- When `get_zabbix_host_id` returned a falsy value, the cache it left behind
has no non-empty entry under the queried name. -/
theorem get_nontruthy_lookup (st : ZState) (name : String) :
    ∀ v : Option String, (get_zabbix_host_id st name).1 = Except.ok v →
    truthyOpt v = false →
    ((get_zabbix_host_id st name).2).cache.lookup name = none ∨
    ((get_zabbix_host_id st name).2).cache.lookup name = some "" := by
  unfold get_zabbix_host_id
  cases hl : st.cache.lookup name with
  | some w =>
    intro v h hv
    have hw : v = some w := by simpa using h.symm
    subst hw
    simp only [truthyOpt, truthy] at hv
    right
    have hw0 : w = "" := by simpa using hv
    rw [hl, hw0]
  | none =>
    cases hs : st.getScript with
    | nil =>
      intro v h _
      simp at h
    | cons resp rest =>
      cases resp with
      | raise =>
        intro v h _
        simp at h
      | notFound =>
        intro v _ _
        simp [hl]
      | found id =>
        by_cases ht : truthy id
        · intro v h hv
          simp [ht] at h
          rw [← h] at hv
          simp [truthyOpt, ht] at hv
        · intro v _ _
          simp [ht, hl]

/-- `create_zabbix_host` never removes or overwrites a cache entry holding a
non-empty id. -/
theorem create_cache_pres (st : ZState) (name n v : String)
    (h : st.cache.lookup n = some v) (hv : v ≠ "") :
    ((create_zabbix_host st name).2).cache.lookup n = some v := by
  unfold create_zabbix_host
  cases hg : get_zabbix_host_id st (sanitize_host_name name) with
  | mk r st1 =>
    have hpres : st1.cache.lookup n = some v := by
      have hp := get_cache_pres st (sanitize_host_name name) n v h hv
      rw [hg] at hp
      exact hp
    cases r with
    | error e => simpa
    | ok w =>
      by_cases ht : truthyOpt w
      · simpa [ht]
      · dsimp only
        rw [if_neg ht]
        cases hs : st1.createScript with
        | nil => simpa
        | cons resp rest =>
          cases resp with
          | raise => simpa
          | malformed => simpa
          | ok ids =>
            cases ids with
            | nil => simpa
            | cons id more =>
              have hS : st1.cache.lookup (sanitize_host_name name) = none ∨
                  st1.cache.lookup (sanitize_host_name name) = some "" := by
                have hg1 : (get_zabbix_host_id st (sanitize_host_name name)).1 =
                    Except.ok w := by rw [hg]
                have := get_nontruthy_lookup st (sanitize_host_name name) w hg1
                  (by simpa using ht)
                rwa [hg] at this
              have hnn : ¬(n = sanitize_host_name name) := by
                intro hnn
                rw [hnn] at hpres
                rcases hS with hS | hS <;> rw [hS] at hpres
                · exact Option.noConfusion hpres
                · exact hv (by simpa using hpres.symm)
              simp [lookup_cacheInsert, hnn, hpres]

theorem createPath_cache_pres (st : ZState) (sanitized check_name : String)
    (status : Nat) (n v : String)
    (h : st.cache.lookup n = some v) (hv : v ≠ "") :
    ((createPath st sanitized check_name status).2).cache.lookup n = some v := by
  unfold createPath
  cases hc : create_zabbix_host st sanitized with
  | mk r st1 =>
    have hpres : st1.cache.lookup n = some v := by
      have hp := create_cache_pres st sanitized n v h hv
      rw [hc] at hp
      exact hp
    cases r with
    | error e => simpa
    | ok w => by_cases ht : truthyOpt w <;> simp [ht, hpres]

/-- `process_check` never removes or overwrites a cache entry holding a
non-empty id. -/
theorem process_check_cache_pres (st : ZState) (check : Check) (n v : String)
    (h : st.cache.lookup n = some v) (hv : v ≠ "") :
    ((process_check st check).2).cache.lookup n = some v := by
  unfold process_check
  cases hg : get_zabbix_host_id st (sanitize_host_name ("Pingdom_" ++ check.name)) with
  | mk r st1 =>
    have hpres : st1.cache.lookup n = some v := by
      have hp := get_cache_pres st (sanitize_host_name ("Pingdom_" ++ check.name)) n v h hv
      rw [hg] at hp
      exact hp
    cases r with
    | error e => simpa
    | ok w =>
      by_cases ht : truthyOpt w
      · simpa [ht]
      · dsimp only
        rw [if_neg ht]
        exact createPath_cache_pres st1 _ check.name (checkStatusValue check) n v hpres hv

/-- A resolve call over a name already cached with a non-empty id is answered
entirely from the cache: same id, no remote call, state untouched. -/
theorem process_check_cache_hit (st : ZState) (check : Check) (v : String)
    (h : st.cache.lookup (sanitize_host_name ("Pingdom_" ++ check.name)) = some v)
    (hv : v ≠ "") :
    process_check st check =
      (Except.ok (some (v, check.name, checkStatusValue check)), st) := by
  unfold process_check get_zabbix_host_id
  rw [h]
  simp [truthyOpt, truthy, hv]

theorem aggregate_lengths (rs : List (Option (String × String × Nat))) :
    (aggregate rs).1.length = (aggregate rs).2.1.length ∧
    (aggregate rs).2.1.length = (aggregate rs).2.2.length := by
  induction rs with
  | nil => simp [aggregate]
  | cons r rest ih =>
    cases r with
    | none => simpa [aggregate] using ih
    | some t =>
      obtain ⟨h, n, s⟩ := t
      by_cases hk : (truthy h && truthy n) = true
      · simp [aggregate, hk, ih.1, ih.2]
      · simpa [aggregate, hk] using ih

theorem aggregate_all_none (rs : List (Option (String × String × Nat)))
    (h : ∀ r ∈ rs, r = none) : aggregate rs = ([], [], []) := by
  induction rs with
  | nil => simp [aggregate]
  | cons r rest ih =>
    have hr : r = none := h r (List.mem_cons_self r rest)
    subst hr
    simpa [aggregate] using ih fun x hx => h x (List.mem_cons_of_mem _ hx)

theorem exists_some_of_aggregate_ne (rs : List (Option (String × String × Nat)))
    (h : (aggregate rs).1 ≠ []) : ∃ r ∈ rs, r ≠ none := by
  induction rs with
  | nil => simp [aggregate] at h
  | cons r rest ih =>
    cases r with
    | none =>
      obtain ⟨x, hx, hxn⟩ := ih (by simpa [aggregate] using h)
      exact ⟨x, List.mem_cons_of_mem _ hx, hxn⟩
    | some t => exact ⟨some t, List.mem_cons_self _ _, by simp⟩

/-- When the resolution phase did not raise, the cycle's outcome is the guarded
mutation phase applied to the aggregate of the task results. -/
theorem runCycle_calls (env : CycleEnv) (cache : List (String × String))
    (checks : List Check) (hf : env.fetch = some checks)
    (hok : (runResolve (cycleState env cache) checks).1.any isErr = false) :
    (runCycle env cache).1 =
      mutationPhase env
        (aggregate ((runResolve (cycleState env cache) checks).1.map exceptValue)) := by
  unfold runCycle
  rw [hf]
  simp [hok]

/-- Each cycle issues at most one remote call per batched operation. -/
theorem runCycle_counts (env : CycleEnv) (cache : List (String × String)) :
    ((runCycle env cache).1.calls.countP fun c => isItemCreateCall c) ≤ 1 ∧
    ((runCycle env cache).1.calls.countP fun c => isTriggerCreateCall c) ≤ 1 ∧
    ((runCycle env cache).1.calls.countP fun c => isItemUpdateCall c) ≤ 1 := by
  have hmp : ∀ agg : List String × List String × List Nat,
      ((mutationPhase env agg).calls.countP fun c => isItemCreateCall c) ≤ 1 ∧
      ((mutationPhase env agg).calls.countP fun c => isTriggerCreateCall c) ≤ 1 ∧
      ((mutationPhase env agg).calls.countP fun c => isItemUpdateCall c) ≤ 1 := by
    intro agg
    unfold mutationPhase
    split_ifs <;>
      simp [CycleResult.calls, List.countP_cons, List.countP_nil,
        isItemCreateCall, isTriggerCreateCall, isItemUpdateCall]
  unfold runCycle
  cases hf : env.fetch with
  | none => simp [CycleResult.calls, List.countP_nil]
  | some checks =>
    by_cases hok : (runResolve (cycleState env cache) checks).1.any isErr = true
    · simp [hok, CycleResult.calls, List.countP_nil]
    · simp only [Bool.not_eq_true] at hok
      simp [hok]
      exact hmp _

/-- A completed mutation phase either skipped (empty aggregate gate) or issued
exactly the three batched calls over the aggregated lists. -/
theorem mutationPhase_completed (env : CycleEnv)
    (agg : List String × List String × List Nat) (calls : List RpcCall)
    (h : mutationPhase env agg = CycleResult.completed calls) :
    calls = [] ∨
    (agg.1 ≠ [] ∧
     calls =
       [RpcCall.itemCreate (create_zabbix_item_batch agg.1 agg.2.1),
        RpcCall.triggerCreate (create_zabbix_trigger_batch agg.1 agg.2.1),
        RpcCall.itemUpdate (send_data_to_zabbix_batch agg.1 agg.2.1 agg.2.2)]) := by
  unfold mutationPhase at h
  by_cases h1 : (agg.1.isEmpty || agg.2.1.isEmpty || agg.2.2.isEmpty) = true
  · rw [if_pos h1] at h
    left
    simpa using h.symm
  · rw [if_neg h1] at h
    by_cases h2 : env.itemRaise = true
    · rw [if_pos h2] at h
      exact absurd h (by simp)
    · rw [if_neg h2] at h
      by_cases h3 : env.triggerRaise = true
      · rw [if_pos h3] at h
        exact absurd h (by simp)
      · rw [if_neg h3] at h
        by_cases h4 : env.updateRaise = true
        · rw [if_pos h4] at h
          exact absurd h (by simp)
        · rw [if_neg h4] at h
          right
          refine ⟨?_, by simpa using h.symm⟩
          intro hnil
          apply h1
          simp [hnil]

/-- C6: whenever an iteration completes, its mutation calls are either none at
all or exactly the three batched mutators over the full aggregated resolved
set, in the fixed order `item.create`, `trigger.create`, `item.update`; the
calls are non-empty only when some check resolved successfully, and when no
check resolved successfully the mutation phase is skipped entirely. -/
theorem claim_C6 (env : CycleEnv) (cache : List (String × String))
    (checks : List Check) (calls : List RpcCall)
    (hf : env.fetch = some checks)
    (hc : (runCycle env cache).1 = CycleResult.completed calls) :
    (calls ≠ [] →
      calls =
        [RpcCall.itemCreate
           (create_zabbix_item_batch
             (aggregate ((runResolve (cycleState env cache) checks).1.map exceptValue)).1
             (aggregate ((runResolve (cycleState env cache) checks).1.map exceptValue)).2.1),
         RpcCall.triggerCreate
           (create_zabbix_trigger_batch
             (aggregate ((runResolve (cycleState env cache) checks).1.map exceptValue)).1
             (aggregate ((runResolve (cycleState env cache) checks).1.map exceptValue)).2.1),
         RpcCall.itemUpdate
           (send_data_to_zabbix_batch
             (aggregate ((runResolve (cycleState env cache) checks).1.map exceptValue)).1
             (aggregate ((runResolve (cycleState env cache) checks).1.map exceptValue)).2.1
             (aggregate ((runResolve (cycleState env cache) checks).1.map exceptValue)).2.2)] ∧
      ∃ r ∈ (runResolve (cycleState env cache) checks).1, exceptValue r ≠ none) ∧
    ((∀ r ∈ (runResolve (cycleState env cache) checks).1, exceptValue r = none) →
      calls = []) := by
  have hok : (runResolve (cycleState env cache) checks).1.any isErr = false := by
    by_contra hno
    have hany : (runResolve (cycleState env cache) checks).1.any isErr = true := by
      simpa using hno
    unfold runCycle at hc
    rw [hf] at hc
    simp [hany] at hc
  have hmp :
      mutationPhase env
        (aggregate ((runResolve (cycleState env cache) checks).1.map exceptValue)) =
      CycleResult.completed calls := by
    rw [← runCycle_calls env cache checks hf hok, hc]
  constructor
  · intro hne
    rcases mutationPhase_completed env _ calls hmp with hnil | ⟨hagg, hcalls⟩
    · exact absurd hnil hne
    · refine ⟨hcalls, ?_⟩
      obtain ⟨x, hx, hxn⟩ := exists_some_of_aggregate_ne _ hagg
      obtain ⟨r, hr, hrx⟩ := List.mem_map.1 hx
      exact ⟨r, hr, by rw [hrx]; exact hxn⟩
  · intro hall
    have hagg :
        aggregate ((runResolve (cycleState env cache) checks).1.map exceptValue) =
          ([], [], []) := by
      refine aggregate_all_none _ ?_
      intro x hx
      obtain ⟨r, hr, hrx⟩ := List.mem_map.1 hx
      rw [← hrx]
      exact hall r hr
    rw [hagg] at hmp
    unfold mutationPhase at hmp
    simp at hmp
    exact hmp

/-- C6 witness: a concrete completed cycle with one successfully resolved
check runs exactly the three mutators over the resolved set. -/
theorem claim_C6_witness :
    (c6Calls ≠ [] →
      c6Calls =
        [RpcCall.itemCreate
           (create_zabbix_item_batch
             (aggregate ((runResolve (cycleState c6Env []) [⟨"A", "up"⟩]).1.map exceptValue)).1
             (aggregate ((runResolve (cycleState c6Env []) [⟨"A", "up"⟩]).1.map exceptValue)).2.1),
         RpcCall.triggerCreate
           (create_zabbix_trigger_batch
             (aggregate ((runResolve (cycleState c6Env []) [⟨"A", "up"⟩]).1.map exceptValue)).1
             (aggregate ((runResolve (cycleState c6Env []) [⟨"A", "up"⟩]).1.map exceptValue)).2.1),
         RpcCall.itemUpdate
           (send_data_to_zabbix_batch
             (aggregate ((runResolve (cycleState c6Env []) [⟨"A", "up"⟩]).1.map exceptValue)).1
             (aggregate ((runResolve (cycleState c6Env []) [⟨"A", "up"⟩]).1.map exceptValue)).2.1
             (aggregate ((runResolve (cycleState c6Env []) [⟨"A", "up"⟩]).1.map exceptValue)).2.2)] ∧
      ∃ r ∈ (runResolve (cycleState c6Env []) [⟨"A", "up"⟩]).1, exceptValue r ≠ none) ∧
    ((∀ r ∈ (runResolve (cycleState c6Env []) [⟨"A", "up"⟩]).1, exceptValue r = none) →
      c6Calls = []) :=
  claim_C6 c6Env [] [⟨"A", "up"⟩] c6Calls rfl rfl

/-- C7: each batch mutator builds one payload with exactly one entry per input
tuple of the aligned resolved sequences, and a cycle issues at most one remote
call per batched operation (one `item.create`, one `trigger.create`, one
`item.update` — never one call per check). -/
theorem claim_C7 (host_ids check_names : List String) (statuses : List Nat)
    (h1 : host_ids.length = check_names.length)
    (h2 : check_names.length = statuses.length) :
    (create_zabbix_item_batch host_ids check_names).length = host_ids.length ∧
    (create_zabbix_trigger_batch host_ids check_names).length = host_ids.length ∧
    (send_data_to_zabbix_batch host_ids check_names statuses).length = host_ids.length ∧
    ∀ (env : CycleEnv) (cache : List (String × String)),
      ((runCycle env cache).1.calls.countP fun c => isItemCreateCall c) ≤ 1 ∧
      ((runCycle env cache).1.calls.countP fun c => isTriggerCreateCall c) ≤ 1 ∧
      ((runCycle env cache).1.calls.countP fun c => isItemUpdateCall c) ≤ 1 := by
  refine ⟨?_, ?_, ?_, fun env cache => runCycle_counts env cache⟩
  · simp [create_zabbix_item_batch, h1]
  · simp [create_zabbix_trigger_batch, h1]
  · simp [send_data_to_zabbix_batch, h1, h2, Nat.min_self]

/-- C7 witness: concrete aligned inputs of length two yield two-entry payloads,
and a concrete cycle issues at most one `item.create` call. -/
theorem claim_C7_witness :
    (create_zabbix_item_batch ["1", "2"] ["a", "b"]).length = 2 ∧
    (create_zabbix_trigger_batch ["1", "2"] ["a", "b"]).length = 2 ∧
    (send_data_to_zabbix_batch ["1", "2"] ["a", "b"] [1, 0]).length = 2 ∧
    ((runCycle c7Env []).1.calls.countP fun c => isItemCreateCall c) ≤ 1 := by
  obtain ⟨a, b, c, d⟩ := claim_C7 ["1", "2"] ["a", "b"] [1, 0] rfl rfl
  exact ⟨a, b, c, (d c7Env []).1⟩

/-- C3 counterexample: when the first resolution of a name fails (malformed
`host.create` response), the next cycle issues a fresh find/create pair for
the same name — here the run issues two `host.create` calls (and four
`host.get` calls) for `Pingdom_A`, refuting "at most one remote find/create
pair is issued for that name across the whole run". -/
theorem claim_C3_counterexample :
    (main_async true [c3Env1, c3Env2]).2.2.2 = ["Pingdom_A", "Pingdom_A"] ∧
    (main_async true [c3Env1, c3Env2]).2.2.1 =
      ["Pingdom_A", "Pingdom_A", "Pingdom_A", "Pingdom_A"] ∧
    (main_async true [c3Env1, c3Env2]).2.1 = false :=
  ⟨rfl, rfl, rfl⟩

/-- C3 amended: after the first successful resolution of a check name the
cache answers every later resolve call with the identical id, the state
untouched and no further remote find/create call issued; and an entry once
stored with a non-empty id is never removed or overwritten within the process
lifetime.  (A failed resolution stores nothing and is retried from scratch on
a later cycle.) -/
theorem claim_C3_amended :
    (∀ (st : ZState) (check : Check) (v : String),
      st.cache.lookup (sanitize_host_name ("Pingdom_" ++ check.name)) = some v →
      v ≠ "" →
      process_check st check =
        (Except.ok (some (v, check.name, checkStatusValue check)), st)) ∧
    (∀ (st : ZState) (check : Check) (n v : String),
      st.cache.lookup n = some v → v ≠ "" →
      ((process_check st check).2).cache.lookup n = some v) :=
  ⟨process_check_cache_hit, process_check_cache_pres⟩

/-- C3 witness: with `Pingdom_A ↦ 9` cached, resolving check A again returns
id 9 from the cache, leaves the state untouched, and keeps the entry. -/
theorem claim_C3_witness :
    process_check c3CacheSt ⟨"A", "up"⟩ =
      (Except.ok (some ("9", "A", 1)), c3CacheSt) ∧
    ((process_check c3CacheSt ⟨"A", "up"⟩).2).cache.lookup "Pingdom_A" = some "9" :=
  ⟨claim_C3_amended.1 c3CacheSt ⟨"A", "up"⟩ "9" (by decide) (by decide),
   claim_C3_amended.2 c3CacheSt ⟨"A", "up"⟩ "Pingdom_A" "9" (by decide) (by decide)⟩

/-- C4 counterexample: checks A and C resolve (and even create their hosts),
check B's `host.get` raises after its retries — yet the cycle is aborted with
no batch calls at all, so A's and C's resolutions do not appear in any batch,
refuting the claim for a raised remote-call failure. -/
theorem claim_C4_counterexample :
    (runResolve (cycleState c4EnvRaise []) [⟨"A", "up"⟩, ⟨"B", "up"⟩, ⟨"C", "down"⟩]).1 =
      [Except.ok (some ("1", "A", 1)), Except.error (),
       Except.ok (some ("3", "C", 0))] ∧
    (runCycle c4EnvRaise []).1 = CycleResult.raised [] :=
  ⟨rfl, rfl⟩

/-- C4 amended: a soft per-check resolution failure (host not found and
creation failing to yield an id, without raising) is isolated — siblings A and
C still appear in the cycle's batch and the cycle proceeds; but a raised
remote-call failure in any check's find/create chain aborts the whole cycle's
mutation phase (and, through the surrounding `try`, the daemon loop). -/
theorem claim_C4_amended :
    (runCycle c4EnvSoft []).1 =
      CycleResult.completed
        [RpcCall.itemCreate
           [{ name := "A", key_ := "pingdom.status[A]", hostid := "1", type := 2,
              value_type := 3, delay := "60s", history := "7d", trends := "365d" },
            { name := "C", key_ := "pingdom.status[C]", hostid := "3", type := 2,
              value_type := 3, delay := "60s", history := "7d", trends := "365d" }],
         RpcCall.triggerCreate
           [{ description := "Pingdom check A is down",
              expression := "\x7bPingdom_A:pingdom.status[A].last()\x7d=0",
              priority := 4, hostid := "1" },
            { description := "Pingdom check C is down",
              expression := "\x7bPingdom_C:pingdom.status[C].last()\x7d=0",
              priority := 4, hostid := "3" }],
         RpcCall.itemUpdate
           [{ hostid := "1", key_ := "pingdom.status[A]", value_type := 3, value := 1 },
            { hostid := "3", key_ := "pingdom.status[C]", value_type := 3, value := 0 }]] ∧
    (runCycle c4EnvRaise []).1 = CycleResult.raised [] :=
  ⟨rfl, rfl⟩

/-- C5: the end-to-end scenario — two fresh checks `API` (up) and `DB Primary`
(down) against an empty target produce two `host.create` calls under the
sanitized names `Pingdom_API` and `Pingdom_DB_Primary`, one `item.create` call
with two entries, one `trigger.create` call with two entries, and one
`item.update` call with the values 1 and 0 respectively. -/
theorem claim_C5 :
    (runCycle c5Env []).1 =
      CycleResult.completed
        [RpcCall.itemCreate
           [{ name := "API", key_ := "pingdom.status[API]", hostid := "10101",
              type := 2, value_type := 3, delay := "60s", history := "7d",
              trends := "365d" },
            { name := "DB Primary", key_ := "pingdom.status[DB Primary]",
              hostid := "10102", type := 2, value_type := 3, delay := "60s",
              history := "7d", trends := "365d" }],
         RpcCall.triggerCreate
           [{ description := "Pingdom check API is down",
              expression := "\x7bPingdom_API:pingdom.status[API].last()\x7d=0",
              priority := 4, hostid := "10101" },
            { description := "Pingdom check DB Primary is down",
              expression := "\x7bPingdom_DB Primary:pingdom.status[DB Primary].last()\x7d=0",
              priority := 4, hostid := "10102" }],
         RpcCall.itemUpdate
           [{ hostid := "10101", key_ := "pingdom.status[API]", value_type := 3,
              value := 1 },
            { hostid := "10102", key_ := "pingdom.status[DB Primary]",
              value_type := 3, value := 0 }]] ∧
    ((runCycle c5Env []).2).createCalls = ["Pingdom_API", "Pingdom_DB_Primary"] :=
  ⟨rfl, rfl⟩

/-- C2 counterexample: a failed fetch in the second of three scripted cycles
terminates the daemon loop — only two cycle outcomes exist and the run ends by
exception, so the loop does not "continue to the next Idle period". -/
theorem claim_C2_counterexample :
    (main_async true [c2Good, c2Fail, c2Good]).1.length = 2 ∧
    (main_async true [c2Good, c2Fail, c2Good]).2.1 = true :=
  ⟨rfl, rfl⟩

/-- C2 amended: the loop is terminal on a failed login and on any raised error
in any cycle — including a failed fetch after startup, since the whole
`while True` sits in one `try`/`except` whose handlers return; only an empty
(zero-check) successful fetch is survived: it skips the mutation phase and the
loop continues to the next cycle. -/
theorem claim_C2_amended :
    (∀ envs : List CycleEnv, main_async false envs = ([], true, [], [])) ∧
    (main_async true [c2Empty, c2Good]).1.length = 2 ∧
    (main_async true [c2Empty, c2Good]).2.1 = false ∧
    (main_async true [c2Empty, c2Good]).1.head? = some (CycleResult.completed []) ∧
    (main_async true [c2Good, c2Fail, c2Good]).1.length = 2 ∧
    (main_async true [c2Good, c2Fail, c2Good]).2.1 = true :=
  ⟨fun _ => rfl, rfl, rfl, rfl, rfl, rfl⟩

/-- A `process_check` task result carries no name or exactly the raw check
name of its input. -/
theorem processResultName_spec (st : ZState) (check : Check) :
    processResultName (process_check st check).1 = none ∨
    processResultName (process_check st check).1 = some check.name := by
  unfold process_check
  cases hg : get_zabbix_host_id st (sanitize_host_name ("Pingdom_" ++ check.name)) with
  | mk r st1 =>
    cases r with
    | error e => left; rfl
    | ok w =>
      by_cases ht : truthyOpt w
      · right
        simp [ht, processResultName]
      · dsimp only
        rw [if_neg ht]
        unfold createPath
        cases hc : create_zabbix_host st1
            (sanitize_host_name ("Pingdom_" ++ check.name)) with
        | mk r2 st2 =>
          cases r2 with
          | error e => left; rfl
          | ok w2 =>
            by_cases ht2 : truthyOpt w2
            · right
              simp [ht2, processResultName]
            · left
              simp [ht2, processResultName]

/-- The check-name list produced by the aggregation loop never contains the
empty string. -/
theorem aggregate_names_nonempty (results : List (Option (String × String × Nat))) :
    (aggregate results).2.1.all (fun n => !(n == "")) = true := by
  induction results with
  | nil => simp [aggregate]
  | cons r rest ih =>
    cases r with
    | none => simpa [aggregate] using ih
    | some t =>
      obtain ⟨h, n, s⟩ := t
      by_cases hk : (truthy h && truthy n) = true
      · have h2 := hk
        rw [Bool.and_eq_true] at h2
        have hn : n ≠ "" := by
          simpa [truthy] using h2.2
        simp [aggregate, hk, hn, ih]
      · simpa [aggregate, hk] using ih

/-- C10: a check whose name is the empty string is always excluded from the
cycle's batch sequences even when its host resolution succeeds — the per-check
result carries the raw check name, and the aggregation keeps a result only
when host id and check name are truthy (the status is always 0 or 1, so its
`is not None` guard always passes).  Concretely: the empty-name check of
`c10Env` resolves to host id 7 (which is even cached), yet the completed cycle
issues no batch calls. -/
theorem claim_C10 :
    (∀ (st : ZState) (check : Check),
      processResultName (process_check st check).1 = none ∨
      processResultName (process_check st check).1 = some check.name) ∧
    (∀ results : List (Option (String × String × Nat)),
      (aggregate results).2.1.all (fun n => !(n == "")) = true) ∧
    (runCycle c10Env []).1 = CycleResult.completed [] ∧
    ((runCycle c10Env []).2).cache.lookup "Pingdom_" = some "7" :=
  ⟨processResultName_spec, aggregate_names_nonempty, rfl, rfl⟩

end PZ
